import Mathlib

/-!
Verification of the session-orchestration logic of the profile-based
browser-automation demo (`src/index.ts`).

The source registers four actions on a Kernel app:
  * `create-profile-browser`
  * `end-session-and-save-profile`
  * `execute-task-with-profile`
  * `get-payload-schemas`

Each action is an async function over caller-supplied JSON payloads that
calls two external collaborators: the Kernel browser-provisioning SDK
(`kernel.profiles.create`, `kernel.browsers.create`,
`kernel.browsers.deleteByID`) and the Magnitude automation agent
(`startBrowserAgent`, `agent.act`, `agent.extract`, `agent.stop`).

Embedding choices:
  * An action body is a computation `Comp σ α : σ → Except JsError α × σ`
    threading a state `σ` that records the trace of external calls (and,
    for `execute-task-with-profile`, the JS mutable locals read by its
    `catch` and `finally` blocks).  A normal `return v` is `Except.ok v`;
    a thrown JavaScript error is `Except.error e`.  `try`/`catch` is the
    `jsTry` combinator.
  * Every external call appends an event to the trace, and its outcome
    (return value or thrown error) is supplied by an environment record,
    so theorems quantify over all collaborator behaviours.
  * The SDK's `ConflictError` subclass test
    (`error instanceof ConflictError`) is the `JsError.conflict`
    constructor.
  * TypeScript type annotations are erased at run time: an action's JSON
    payload may omit any field, so payload fields are `Option String`.
    JavaScript truthiness of a possibly-absent string (`!payload`,
    `!payload.session_id`, `!process.env.ANTHROPIC_API_KEY`,
    `if (extract_instructions)`, `if (kernelBrowser?.session_id)`) is
    `strTruthy`: an absent value and the empty string are falsy.
  * Opaque values (the agent's task result, extracted records, URLs,
    invocation ids) are modelled as `String`; `null`/`undefined` result
    fields are `Option.none`.
-/

/-- A thrown JavaScript error: either the SDK's `ConflictError` subclass
or any other error, with `msg` standing for `error.message`. -/
inductive JsError where
  | conflict (msg : String)
  | other (msg : String)
deriving DecidableEq, Repr

/-- Message of an error, as read by
`error instanceof Error ? error.message : String(error)`. -/
def JsError.msg : JsError → String
  | .conflict m => m
  | .other m => m

/-- Outcome of one awaited external call: a returned value or a thrown
error. -/
inductive ExtResult (α : Type) where
  | ok (v : α)
  | err (e : JsError)
deriving DecidableEq, Repr

/-- JavaScript truthiness of a possibly-absent string: `undefined`,
`null` and `""` are falsy, every other string is truthy. -/
def strTruthy : Option String → Bool
  | none => false
  | some s => !s.isEmpty

/-- JavaScript `x || d` for a possibly-absent string `x` and a default
string `d`. -/
def jsOr (x : Option String) (d : String) : String :=
  match x with
  | none => d
  | some s => if s.isEmpty then d else s

/-- The object returned by `kernel.browsers.create`;
`browser_live_view_url` and `session_id` may be absent (the source
guards both). -/
structure KernelBrowser where
  browser_live_view_url : Option String
  session_id : Option String
  cdp_ws_url : String
deriving DecidableEq, Repr

/-- One call to an external collaborator, with the arguments the source
passes at that call site. -/
inductive Event where
  | profilesCreate (name : String)
  | browsersCreate (invocationId : String) (profileName : Option String)
      (saveChanges : Bool) (stealth : Bool)
  | browsersDelete (sessionId : String)
  | agentStart (url : String) (cdp : String)
  | agentAct (task : Option String)
  | agentExtract (instructions : String)
  | agentStop
deriving DecidableEq, Repr

/-- Whether an event is a call to the browser-provisioning service. -/
def Event.isProvisioning : Event → Bool
  | .profilesCreate _ => true
  | .browsersCreate _ _ _ _ => true
  | .browsersDelete _ => true
  | _ => false

/-- Whether an event is a session-termination call
(`kernel.browsers.deleteByID`). -/
def Event.isDelete : Event → Bool
  | .browsersDelete _ => true
  | _ => false

/-- Whether an event is a session-creation call
(`kernel.browsers.create`). -/
def Event.isBrowsersCreate : Event → Bool
  | .browsersCreate _ _ _ _ => true
  | _ => false

/-- Whether an event is a call to `agent.stop()`. -/
def Event.isStop : Event → Bool
  | .agentStop => true
  | _ => false

/-- Number of session-termination calls in a trace. -/
def deleteCount (t : List Event) : Nat := (t.filter Event.isDelete).length

/-- Number of `agent.stop()` calls in a trace. -/
def stopCount (t : List Event) : Nat := (t.filter Event.isStop).length

/-- Number of calls to the browser-provisioning service in a trace. -/
def provisioningCount (t : List Event) : Nat :=
  (t.filter Event.isProvisioning).length

/-! ### A small effect language for JavaScript action bodies -/

/-- A JavaScript computation over mutable state `σ`: it either returns
normally (`Except.ok`) or throws (`Except.error`), and may update the
state. -/
def Comp (σ : Type) (α : Type) : Type := σ → Except JsError α × σ

/-- Sequencing: run `x`; a thrown error skips the continuation. -/
def Comp.bind {σ α β : Type} (x : Comp σ α) (f : α → Comp σ β) : Comp σ β :=
  fun s =>
    match x s with
    | (.ok v, s1) => f v s1
    | (.error e, s1) => (.error e, s1)

/-- Return a value without touching the state. -/
def Comp.pure {σ α : Type} (v : α) : Comp σ α := fun s => (.ok v, s)

instance instMonadComp {σ : Type} : Monad (Comp σ) where
  pure := Comp.pure
  bind := Comp.bind

/-- JavaScript `throw e`. -/
def jsThrow {σ α : Type} (e : JsError) : Comp σ α := fun s => (.error e, s)

/-- JavaScript `try { body } catch (e) { handler e }` for a catch block
that itself returns normally or rethrows. -/
def jsTry {σ α : Type} (body : Comp σ α) (handler : JsError → Comp σ α) :
    Comp σ α :=
  fun s =>
    match body s with
    | (.ok v, s1) => (.ok v, s1)
    | (.error e, s1) => handler e s1

/-- Read the current state. -/
def getState {σ : Type} : Comp σ σ := fun s => (.ok s, s)

/-- Update the current state. -/
def modifyState {σ : Type} (f : σ → σ) : Comp σ Unit := fun s => (.ok (), f s)

/-! ### end-session-and-save-profile -/

/-- Payload of `end-session-and-save-profile`; at run time `session_id`
may be absent from the JSON. -/
structure EndSessionAndSaveProfilePayload where
  session_id : Option String
deriving DecidableEq, Repr

/-- Output of `end-session-and-save-profile`. -/
structure EndSessionAndSaveProfileOutput where
  success : Bool
deriving DecidableEq, Repr

/-- Collaborator behaviour visible to `end-session-and-save-profile`:
the outcome of its single `kernel.browsers.deleteByID` call. -/
structure EndEnv where
  deleteSession : ExtResult Unit
deriving DecidableEq, Repr

/-- Computation of an action whose only state is the trace of external
calls. -/
abbrev TraceComp (α : Type) := Comp (List Event) α

/-- Record an external call in the trace. -/
def emit (e : Event) : TraceComp Unit := modifyState (fun t => t ++ [e])

/-- Await an external call: record it, then return its value or throw. -/
def extCall {α : Type} (e : Event) (r : ExtResult α) : TraceComp α := do
  emit e
  match r with
  | .ok v => pure v
  | .err x => jsThrow x

/-- The `end-session-and-save-profile` action body (src/index.ts):
return `{success: false}` on an absent payload or a falsy `session_id`;
otherwise try to delete the session and report `{success: false}` on any
caught error, `{success: true}` otherwise.  (The source's `catch` block
is an early `return {success: false}`; since the `try` block's trailing
`return {success: true}` cannot throw, folding it into `jsTry` is
behaviour-preserving.) -/
def endSessionAndSaveProfile (env : EndEnv)
    (payload : Option EndSessionAndSaveProfilePayload) :
    TraceComp EndSessionAndSaveProfileOutput := do
  match payload with
  | none => pure { success := false }
  | some p =>
    if strTruthy p.session_id then
      jsTry (do
          let _ ← extCall (.browsersDelete (jsOr p.session_id "")) env.deleteSession
          pure { success := true })
        (fun _ => pure { success := false })
    else
      pure { success := false }

/-- Run `end-session-and-save-profile` from an empty trace. -/
def runEnd (env : EndEnv) (payload : Option EndSessionAndSaveProfilePayload) :
    Except JsError EndSessionAndSaveProfileOutput × List Event :=
  endSessionAndSaveProfile env payload []

/-! ### create-profile-browser -/

/-- Output of `create-profile-browser`. -/
structure CreateProfileBrowserOutput where
  browser_live_view_url : String
  profile_name : String
  session_id : String
deriving DecidableEq, Repr

/-- Collaborator behaviour and nondeterminism visible to
`create-profile-browser`: the `Date.now()` timestamp and
`Math.random()`-derived string used for the profile name, and the
outcomes of the `kernel.profiles.create` and `kernel.browsers.create`
calls. -/
structure CreateEnv where
  timestamp : Nat
  randomStr : String
  profilesCreate : ExtResult Unit
  browsersCreate : ExtResult KernelBrowser
deriving DecidableEq, Repr

/-- The profile name generated by `create-profile-browser`:
`profile_<timestamp>_<randomStr>`. -/
def generatedProfileName (env : CreateEnv) : String :=
  "profile_" ++ toString env.timestamp ++ "_" ++ env.randomStr

/-- The `create-profile-browser` action body (src/index.ts): generate a
profile name; try to create the profile, swallowing only `ConflictError`
and rethrowing anything else; then create a browser session bound to the
profile with `save_changes: true` and `stealth: true`.  Errors from the
session creation (and non-conflict profile-creation errors) are not
caught: they propagate to the caller. -/
def createProfileBrowser (env : CreateEnv) (invocationId : String) :
    TraceComp CreateProfileBrowserOutput := do
  let profileName := generatedProfileName env
  jsTry (do
      let _ ← extCall (.profilesCreate profileName) env.profilesCreate
      pure ())
    (fun e =>
      match e with
      | .conflict _ => pure ()
      | .other _ => jsThrow e)
  let kernelBrowser ← extCall
    (.browsersCreate invocationId (some profileName) true true) env.browsersCreate
  pure { browser_live_view_url := jsOr kernelBrowser.browser_live_view_url "",
         profile_name := profileName,
         session_id := jsOr kernelBrowser.session_id "" }

/-- Run `create-profile-browser` from an empty trace. -/
def runCreate (env : CreateEnv) (invocationId : String) :
    Except JsError CreateProfileBrowserOutput × List Event :=
  createProfileBrowser env invocationId []

/-! ### execute-task-with-profile -/

/-- Payload of `execute-task-with-profile`; the TypeScript interface
requires `profile_name` and `task`, but at run time the JSON payload may
omit any field, so all four are possibly absent. -/
structure ExecuteTaskWithProfilePayload where
  profile_name : Option String
  task : Option String
  url : Option String
  extract_instructions : Option String
deriving DecidableEq, Repr

/-- The structured data returned by `agent.extract` under the flexible
`z.object({data: z.record(z.any())})` schema: an open mapping with
opaque values. -/
structure Extracted where
  data : List (String × String)
deriving DecidableEq, Repr

/-- Output of `execute-task-with-profile`; absent fields are `none`
(`extracted_data` is also `none` when the source returns `null`). -/
structure ExecuteTaskWithProfileOutput where
  success : Bool
  task_result : Option String
  extracted_data : Option Extracted
  error : Option String
  session_id : Option String
deriving DecidableEq, Repr

/-- Collaborator behaviour visible to `execute-task-with-profile`: the
`ANTHROPIC_API_KEY` environment variable and the outcome of each
external call the operation can make. -/
structure ExecEnv where
  apiKey : Option String
  browsersCreate : ExtResult KernelBrowser
  agentStart : ExtResult Unit
  act : ExtResult String
  extract : ExtResult Extracted
  deleteSession : ExtResult Unit
  agentStop : ExtResult Unit
deriving DecidableEq, Repr

/-- The mutable locals of `execute-task-with-profile` (`let kernelBrowser;
let agent;`), read by the catch and finally blocks, plus the trace of
external calls. -/
structure ExecState where
  trace : List Event
  kernelBrowser : Option KernelBrowser
  agentStarted : Bool
deriving DecidableEq, Repr

/-- Computation of the `execute-task-with-profile` body. -/
abbrev ExecComp (α : Type) := Comp ExecState α

/-- Record an external call in the trace. -/
def emitX (e : Event) : ExecComp Unit :=
  modifyState (fun s => { s with trace := s.trace ++ [e] })

/-- Await an external call: record it, then return its value or throw. -/
def extCallX {α : Type} (e : Event) (r : ExtResult α) : ExecComp α := do
  emitX e
  match r with
  | .ok v => pure v
  | .err x => jsThrow x

/-- The `try` block of `execute-task-with-profile`: create a session
bound to the named profile with `save_changes: false` and
`stealth: true`, start the browser agent, run `agent.act(task)`, and, if
`extract_instructions` is truthy, attempt `agent.extract`, swallowing
extraction errors (leaving `extractedData` null). -/
def executeTaskTry (env : ExecEnv) (invocationId : String)
    (p : ExecuteTaskWithProfilePayload) : ExecComp ExecuteTaskWithProfileOutput := do
  let kernelBrowser ← extCallX
    (.browsersCreate invocationId p.profile_name false true) env.browsersCreate
  modifyState (fun s => { s with kernelBrowser := some kernelBrowser })
  let _ ← extCallX (.agentStart (jsOr p.url "") kernelBrowser.cdp_ws_url)
    env.agentStart
  modifyState (fun s => { s with agentStarted := true })
  let result ← extCallX (.agentAct p.task) env.act
  let extractedData ←
    if strTruthy p.extract_instructions then
      jsTry (do
          let d ← extCallX (.agentExtract (jsOr p.extract_instructions ""))
            env.extract
          pure (some d))
        (fun _ => pure none)
    else
      pure none
  pure { success := true,
         task_result := some result,
         extracted_data := extractedData,
         error := none,
         session_id := kernelBrowser.session_id }

/-- The `catch` block of `execute-task-with-profile`: report failure with
the error message and whatever session id was obtained before the
failure (`kernelBrowser?.session_id`). -/
def executeTaskCatch (e : JsError) : ExecComp ExecuteTaskWithProfileOutput := do
  let s ← getState
  pure { success := false,
         task_result := none,
         extracted_data := none,
         error := some e.msg,
         session_id := s.kernelBrowser.bind KernelBrowser.session_id }

/-- The `finally` block of `execute-task-with-profile`: if a truthy
session id was obtained, delete the browser session and, if the agent
was started, stop it; any error in this cleanup is caught and only
logged.  Note the source stops the agent inside the same `try` as the
deletion, so a failing deletion also skips the `agent.stop()` call. -/
def executeTaskCleanup (env : ExecEnv) : ExecComp Unit := do
  let s ← getState
  match s.kernelBrowser with
  | some kernelBrowser =>
    if strTruthy kernelBrowser.session_id then
      jsTry (do
          let _ ← extCallX (.browsersDelete (jsOr kernelBrowser.session_id ""))
            env.deleteSession
          if s.agentStarted then do
            let _ ← extCallX .agentStop env.agentStop
            pure ()
          else
            pure ())
        (fun _ => pure ())
    else
      pure ()
  | none => pure ()

/-- The `execute-task-with-profile` action body (src/index.ts): reject an
absent payload, reject a falsy `ANTHROPIC_API_KEY` before any external
call, then run the `try` block with its `catch`, and always run the
`finally` cleanup before returning the already-determined result.  (The
catch block never rethrows and the cleanup swallows its own errors, so
running the cleanup after `jsTry` is the `finally` of the source.) -/
def executeTaskWithProfile (env : ExecEnv) (invocationId : String)
    (payload : Option ExecuteTaskWithProfilePayload) :
    ExecComp ExecuteTaskWithProfileOutput := do
  match payload with
  | none =>
    pure { success := false,
           task_result := none,
           extracted_data := none,
           error := some "Payload is required with profile_name and task",
           session_id := none }
  | some p =>
    if strTruthy env.apiKey then do
      let r ← jsTry (executeTaskTry env invocationId p) executeTaskCatch
      executeTaskCleanup env
      pure r
    else
      pure { success := false,
             task_result := none,
             extracted_data := none,
             error := some "ANTHROPIC_API_KEY environment variable is not set",
             session_id := none }

/-- Run `execute-task-with-profile` from an empty trace and unassigned
locals, returning the result and the final trace. -/
def runExec (env : ExecEnv) (invocationId : String)
    (payload : Option ExecuteTaskWithProfilePayload) :
    Except JsError ExecuteTaskWithProfileOutput × List Event :=
  let r := executeTaskWithProfile env invocationId payload
    { trace := [], kernelBrowser := none, agentStarted := false }
  (r.1, r.2.trace)

/-! ### get-payload-schemas -/

/-- Description of one payload field in the schema registry. -/
structure PayloadField where
  type : String
  required : Bool
  description : String
deriving DecidableEq, Repr

/-- Schema of one action: a description and either a field map or a null
payload marker. -/
structure ActionSchema where
  description : String
  payload : Option (List (String × PayloadField))
deriving DecidableEq, Repr

/-- The static object literal returned by `get-payload-schemas`
(src/index.ts), as an ordered association list of action name to schema. -/
def payloadSchemas : List (String × ActionSchema) :=
  [ ("create-profile-browser",
     { description := "Creates a new browser with a persistent profile for authentication",
       payload := none }),
    ("end-session-and-save-profile",
     { description := "Ends a browser session and saves the profile state",
       payload := some
         [ ("session_id",
            { type := "string", required := true,
              description := "The browser session ID to terminate" }) ] }),
    ("execute-task-with-profile",
     { description := "Executes automated tasks using an existing profile with pre-loaded authentication",
       payload := some
         [ ("profile_name",
            { type := "string", required := true,
              description := "The profile name to use (from create-profile-browser)" }),
           ("task",
            { type := "string", required := true,
              description := "Natural language description of the task to execute" }),
           ("url",
            { type := "string", required := false,
              description := "Optional starting URL for the browser" }),
           ("extract_instructions",
            { type := "string", required := false,
              description := "Optional instructions for extracting structured data after task completion" }) ] }),
    ("get-payload-schemas",
     { description := "Returns the expected payload format for each action",
       payload := none }) ]

/-- The `get-payload-schemas` action body (src/index.ts): it ignores the
invocation context and returns the static object, making no external
call. -/
def getPayloadSchemas (invocationId : String) :
    TraceComp (List (String × ActionSchema)) :=
  let _ := invocationId
  pure payloadSchemas

/-- Run `get-payload-schemas` from an empty trace. -/
def runGetPayloadSchemas (invocationId : String) :
    Except JsError (List (String × ActionSchema)) × List Event :=
  getPayloadSchemas invocationId []

/-- The four action names registered on the app, in source order. -/
def actionNames : List String :=
  [ "create-profile-browser", "end-session-and-save-profile",
    "execute-task-with-profile", "get-payload-schemas" ]

/-! ### Concrete fixtures used to instantiate theorems with hypotheses -/

/-- A concrete browser object with a truthy session id. -/
def kbFix : KernelBrowser :=
  { browser_live_view_url := some "https://liveview", session_id := some "S1",
    cdp_ws_url := "ws://cdp" }

/-- A concrete environment in which the credential is set and every
external call succeeds. -/
def execEnvAllOk : ExecEnv :=
  { apiKey := some "key", browsersCreate := .ok kbFix, agentStart := .ok (),
    act := .ok "task done", extract := .ok { data := [("k", "v")] },
    deleteSession := .ok (), agentStop := .ok () }

/-- A concrete, fully-populated payload for `execute-task-with-profile`. -/
def payloadFix : ExecuteTaskWithProfilePayload :=
  { profile_name := some "prof", task := some "do the task", url := none,
    extract_instructions := some "get the data" }

/-! ## Helper lemmas -/

theorem strTruthy_none : strTruthy none = false := rfl

theorem strTruthy_some (s : String) : strTruthy (some s) = !s.isEmpty := rfl

theorem jsOr_none (d : String) : jsOr none d = d := rfl

theorem jsOr_some (s d : String) :
    jsOr (some s) d = if s.isEmpty then d else s := rfl

theorem Comp.bind_apply {σ α β : Type} (x : Comp σ α) (f : α → Comp σ β) (s : σ) :
    (x >>= f) s =
      match x s with
      | (.ok v, s1) => f v s1
      | (.error e, s1) => (.error e, s1) := rfl

theorem jsTry_apply {σ α : Type} (body : Comp σ α) (handler : JsError → Comp σ α)
    (s : σ) :
    jsTry body handler s =
      match body s with
      | (.ok v, s1) => (.ok v, s1)
      | (.error e, s1) => handler e s1 := rfl

theorem executeTaskCatch_apply (e : JsError) (s : ExecState) :
    executeTaskCatch e s =
      (.ok { success := false, task_result := none, extracted_data := none,
             error := some e.msg,
             session_id := s.kernelBrowser.bind KernelBrowser.session_id }, s) := rfl

/-- The cleanup phase never throws: its own errors are swallowed. -/
theorem executeTaskCleanup_ok (env : ExecEnv) (s : ExecState) :
    ∃ s2, executeTaskCleanup env s = (.ok (), s2) := by
  obtain ⟨t, okb, ag⟩ := s
  cases okb with
  | none => exact ⟨_, rfl⟩
  | some kb =>
    cases hts : strTruthy kb.session_id with
    | false =>
      refine ⟨⟨t, some kb, ag⟩, ?_⟩
      simp [executeTaskCleanup, extCallX, emitX, jsTry, jsThrow, getState,
        modifyState, instMonadComp, Comp.bind, Comp.pure, hts]
    | true =>
      cases ag <;> cases hdel : env.deleteSession <;> cases hstp : env.agentStop <;>
        · simp [executeTaskCleanup, extCallX, emitX, jsTry, jsThrow, getState,
            modifyState, instMonadComp, Comp.bind, Comp.pure, hts, hdel, hstp]

/-- The guarded `try`/`catch` stage of `execute-task-with-profile`
returns normally for every behaviour of the collaborators, because the
catch block itself always returns normally. -/
theorem execTryStage_ok (env : ExecEnv) (inv : String)
    (p : ExecuteTaskWithProfilePayload) (s : ExecState) :
    ∃ o s1, jsTry (executeTaskTry env inv p) executeTaskCatch s = (.ok o, s1) := by
  rw [jsTry_apply]
  rcases executeTaskTry env inv p s with ⟨res, s1⟩
  cases res with
  | ok v => exact ⟨v, s1, rfl⟩
  | error e => exact ⟨_, s1, executeTaskCatch_apply e s1⟩

/-- `execute-task-with-profile` returns a structured result for every
payload and every collaborator behaviour; no fault escapes it. -/
theorem exec_returns_ok (env : ExecEnv) (inv : String)
    (payload : Option ExecuteTaskWithProfilePayload) :
    ∃ o, (runExec env inv payload).1 = .ok o := by
  cases payload with
  | none => exact ⟨_, rfl⟩
  | some p =>
    cases hA : strTruthy env.apiKey with
    | false =>
      refine ⟨{ success := false, task_result := none, extracted_data := none,
                error := some "ANTHROPIC_API_KEY environment variable is not set",
                session_id := none }, ?_⟩
      simp [runExec, executeTaskWithProfile, hA, instMonadComp, Comp.bind, Comp.pure]
    | true =>
      obtain ⟨o, s1, h1⟩ := execTryStage_ok env inv p
        { trace := [], kernelBrowser := none, agentStarted := false }
      obtain ⟨s2, h2⟩ := executeTaskCleanup_ok env s1
      refine ⟨o, ?_⟩
      simp [runExec, executeTaskWithProfile, hA, instMonadComp, Comp.bind,
        Comp.pure, h1, h2]

/-- The result of `execute-task-with-profile` (with a payload and a
truthy credential) is fully determined before the cleanup phase: cleanup
never overrides it. -/
theorem exec_result_ignores_cleanup (env : ExecEnv) (inv : String)
    (p : ExecuteTaskWithProfilePayload) (h : strTruthy env.apiKey = true) :
    (runExec env inv (some p)).1 =
      (jsTry (executeTaskTry env inv p) executeTaskCatch
        { trace := [], kernelBrowser := none, agentStarted := false }).1 := by
  obtain ⟨o, s1, h1⟩ := execTryStage_ok env inv p
    { trace := [], kernelBrowser := none, agentStarted := false }
  obtain ⟨s2, h2⟩ := executeTaskCleanup_ok env s1
  simp [runExec, executeTaskWithProfile, h, instMonadComp, Comp.bind,
    Comp.pure, h1, h2]

/-- `end-session-and-save-profile` returns a structured result for every
payload and every collaborator behaviour; no fault escapes it. -/
theorem end_returns_ok (env : EndEnv)
    (payload : Option EndSessionAndSaveProfilePayload) :
    ∃ o, (runEnd env payload).1 = .ok o := by
  obtain ⟨d⟩ := env
  cases payload with
  | none => exact ⟨{ success := false }, rfl⟩
  | some p =>
    cases hts : strTruthy p.session_id with
    | false =>
      refine ⟨{ success := false }, ?_⟩
      simp [runEnd, endSessionAndSaveProfile, hts, instMonadComp, Comp.pure]
    | true =>
      cases d with
      | ok v =>
        refine ⟨{ success := true }, ?_⟩
        simp [runEnd, endSessionAndSaveProfile, extCall, emit, jsTry, jsThrow,
          getState, modifyState, hts, instMonadComp, Comp.bind, Comp.pure]
      | err e =>
        refine ⟨{ success := false }, ?_⟩
        simp [runEnd, endSessionAndSaveProfile, extCall, emit, jsTry, jsThrow,
          getState, modifyState, hts, instMonadComp, Comp.bind, Comp.pure]

/-! ## Claims -/

/-- C4: for every session identifier that is present (non-empty) and every
failing termination call, `end-session-and-save-profile` returns
`{success: false}` (an `Except.ok` result, so no error propagates to the
caller) after the single `deleteByID` call. -/
theorem end_session_termination_failure_reports_false (sid : String) (e : JsError)
    (h : sid.isEmpty = false) :
    runEnd { deleteSession := .err e } (some { session_id := some sid }) =
      (.ok { success := false }, [.browsersDelete sid]) := by
  simp [runEnd, endSessionAndSaveProfile, extCall, emit, jsTry, jsThrow,
    getState, modifyState, strTruthy_some, jsOr_some, instMonadComp, Comp.bind,
    Comp.pure, h]

/-- C4 witness: the theorem instantiated at session id `"S1"` and a
termination call throwing an error with message `"boom"`. -/
theorem end_session_termination_failure_reports_false_witness :
    runEnd { deleteSession := .err (.other "boom") } (some { session_id := some "S1" }) =
      (.ok { success := false }, [.browsersDelete "S1"]) :=
  end_session_termination_failure_reports_false "S1" (.other "boom") rfl

/-- C5: for every collaborator behaviour, `end-session-and-save-profile`
with an absent payload, an absent `session_id`, or an empty `session_id`
returns `{success: false}` with an empty trace — the provisioning service
is never contacted. -/
theorem end_session_missing_id_no_call (env : EndEnv) :
    runEnd env none = (.ok { success := false }, [])
    ∧ runEnd env (some { session_id := none }) = (.ok { success := false }, [])
    ∧ runEnd env (some { session_id := some "" }) = (.ok { success := false }, []) :=
  ⟨rfl, rfl, rfl⟩

/-- C2: for every collaborator behaviour, invocation id and payload,
`execute-task-with-profile` with `ANTHROPIC_API_KEY` absent returns
`{success: false, error: <message>}` with an empty trace, so the
provisioning service receives zero calls and no session is created. -/
theorem exec_missing_credential_no_session (env : ExecEnv) (inv : String)
    (p : ExecuteTaskWithProfilePayload) :
    runExec { env with apiKey := none } inv (some p) =
      (.ok { success := false, task_result := none, extracted_data := none,
             error := some "ANTHROPIC_API_KEY environment variable is not set",
             session_id := none }, [])
    ∧ provisioningCount (runExec { env with apiKey := none } inv (some p)).2 = 0 :=
  ⟨rfl, rfl⟩

/-- C9: `get-payload-schemas` makes no external call, returns the same
static mapping on every invocation, and the keys of that mapping are
exactly the four action names, in registration order. -/
theorem get_payload_schemas_static (inv1 inv2 : String) :
    runGetPayloadSchemas inv1 = (.ok payloadSchemas, [])
    ∧ runGetPayloadSchemas inv1 = runGetPayloadSchemas inv2
    ∧ payloadSchemas.map Prod.fst = actionNames :=
  ⟨rfl, rfl, rfl⟩

set_option maxHeartbeats 4000000 in
/-- C1: whenever `execute-task-with-profile` obtains a truthy session
identifier from `kernel.browsers.create`, the cleanup phase runs exactly
once before the operation returns, on every path (normal success,
task-execution failure, extraction failure, and every other collaborator
behaviour): exactly one session-termination call is made, `agent.stop()`
is called at most once, and exactly once when the agent was started and
the termination call succeeds. -/
theorem exec_cleanup_runs_exactly_once (env : ExecEnv) (inv : String)
    (p : ExecuteTaskWithProfilePayload) (kb : KernelBrowser) (sid : String)
    (h1 : strTruthy env.apiKey = true)
    (h2 : env.browsersCreate = .ok kb)
    (h3 : kb.session_id = some sid)
    (h4 : sid.isEmpty = false) :
    deleteCount (runExec env inv (some p)).2 = 1
    ∧ stopCount (runExec env inv (some p)).2 ≤ 1
    ∧ (env.agentStart = .ok () → env.deleteSession = .ok () →
        stopCount (runExec env inv (some p)).2 = 1) := by
  obtain ⟨key, bc, as_, act, ext, del, stp⟩ := env
  simp only at h1 h2
  subst h2
  obtain ⟨lv, osid, cdp⟩ := kb
  simp only at h3
  subst h3
  cases as_ <;> cases act <;> cases ext <;> cases del <;> cases stp <;>
    cases hp : strTruthy p.extract_instructions <;>
    simp [runExec, executeTaskWithProfile, executeTaskTry, executeTaskCatch,
      executeTaskCleanup, extCallX, emitX, jsTry, jsThrow, getState, modifyState,
      strTruthy_none, strTruthy_some, jsOr_none, jsOr_some, instMonadComp,
      Comp.bind, Comp.pure, h1, h4, hp, deleteCount, stopCount,
      Event.isDelete, Event.isStop]

/-- C1 witness: the theorem instantiated at the all-success fixture. -/
theorem exec_cleanup_runs_exactly_once_witness :
    deleteCount (runExec execEnvAllOk "inv" (some payloadFix)).2 = 1
    ∧ stopCount (runExec execEnvAllOk "inv" (some payloadFix)).2 ≤ 1
    ∧ (execEnvAllOk.agentStart = .ok () → execEnvAllOk.deleteSession = .ok () →
        stopCount (runExec execEnvAllOk "inv" (some payloadFix)).2 = 1) :=
  exec_cleanup_runs_exactly_once execEnvAllOk "inv" payloadFix kbFix "S1"
    rfl rfl rfl rfl

/-- C3 counterexample: `create-profile-browser` does not always return a
structured result — with a successful profile creation and a failing
session creation, the error escapes the operation unhandled
(`Except.error`), refuting the claim for the CreateProfileBrowser
operation at this concrete input. -/
theorem create_unhandled_fault_cex :
    runCreate { timestamp := 0, randomStr := "r", profilesCreate := .ok (),
                browsersCreate := .err (.other "browser create failed") } "inv" =
      (.error (.other "browser create failed"),
       [.profilesCreate "profile_0_r",
        .browsersCreate "inv" (some "profile_0_r") true true]) := rfl

/-- C3 amended: `end-session-and-save-profile`,
`execute-task-with-profile` and `get-payload-schemas` return a
structured result for every input and every collaborator behaviour,
never an unhandled fault; `create-profile-browser`, however, propagates
a session-creation error and a non-conflict profile-creation error to
its caller as an unhandled fault. -/
theorem operations_structured_results :
    (∀ (env : EndEnv) (payload : Option EndSessionAndSaveProfilePayload),
      ∃ o, (runEnd env payload).1 = .ok o)
    ∧ (∀ (env : ExecEnv) (inv : String)
        (payload : Option ExecuteTaskWithProfilePayload),
      ∃ o, (runExec env inv payload).1 = .ok o)
    ∧ (∀ inv : String, (runGetPayloadSchemas inv).1 = .ok payloadSchemas)
    ∧ (∀ (env : CreateEnv) (inv : String) (e : JsError),
      (runCreate { env with profilesCreate := .ok (),
                            browsersCreate := .err e } inv).1 = .error e)
    ∧ (∀ (env : CreateEnv) (inv m : String),
      (runCreate { env with profilesCreate := .err (.other m) } inv).1 =
        .error (.other m)) := by
  refine ⟨end_returns_ok, exec_returns_ok, fun inv => rfl, ?_, ?_⟩
  · intro env inv e
    obtain ⟨ts, rs, pc, bc⟩ := env
    simp [runCreate, createProfileBrowser, extCall, emit, jsTry, jsThrow,
      getState, modifyState, instMonadComp, Comp.bind, Comp.pure]
  · intro env inv m
    obtain ⟨ts, rs, pc, bc⟩ := env
    simp [runCreate, createProfileBrowser, extCall, emit, jsTry, jsThrow,
      getState, modifyState, instMonadComp, Comp.bind, Comp.pure]

/-- C6: when task execution succeeds and the extraction step fails, the
operation still returns `success: true` with `task_result` populated and
`extracted_data` absent — for every collaborator behaviour of the
cleanup calls. -/
theorem exec_extraction_failure_keeps_success (env : ExecEnv) (inv : String)
    (p : ExecuteTaskWithProfilePayload) (kb : KernelBrowser) (r instr : String)
    (e : JsError)
    (h1 : strTruthy env.apiKey = true)
    (h2 : env.browsersCreate = .ok kb)
    (h3 : env.agentStart = .ok ())
    (h4 : env.act = .ok r)
    (h5 : env.extract = .err e)
    (h6 : p.extract_instructions = some instr)
    (h7 : instr.isEmpty = false) :
    (runExec env inv (some p)).1 =
      .ok { success := true, task_result := some r, extracted_data := none,
            error := none, session_id := kb.session_id } := by
  rw [exec_result_ignores_cleanup env inv p h1]
  simp [executeTaskTry, extCallX, emitX, jsTry, jsThrow, getState, modifyState,
    instMonadComp, Comp.bind, Comp.pure, h2, h3, h4, h5, h6, h7,
    strTruthy_some, jsOr_some]

/-- C6 witness: the theorem instantiated at the all-success fixture with
a failing extraction call. -/
theorem exec_extraction_failure_keeps_success_witness :
    (runExec { execEnvAllOk with extract := .err (.other "boom") } "inv"
      (some payloadFix)).1 =
      .ok { success := true, task_result := some "task done",
            extracted_data := none, error := none,
            session_id := kbFix.session_id } :=
  exec_extraction_failure_keeps_success
    { execEnvAllOk with extract := .err (.other "boom") } "inv" payloadFix kbFix
    "task done" "get the data" (.other "boom") rfl rfl rfl rfl rfl rfl rfl

/-- C7 counterexample: a payload that lacks both required fields
(`profile_name` and `task` absent) is not reported as an unsuccessful
result — with the credential set and cooperating collaborators the
operation returns `success: true`, refuting the claim at this concrete
input. -/
theorem exec_missing_field_can_succeed_cex :
    (runExec execEnvAllOk "inv"
      (some { profile_name := none, task := none, url := none,
              extract_instructions := none })).1 =
      .ok { success := true, task_result := some "task done",
            extracted_data := none, error := none, session_id := some "S1" } := rfl

/-- C7 amended: an absent payload or a missing credential is reported as
an unsuccessful structured result; the operation never throws for any
payload; but a present payload lacking `profile_name` or `task` is not
detected locally — the operation proceeds to call the provisioning
service with whatever (possibly absent) profile name the payload
carried, and its result is then whatever the external calls produce. -/
theorem exec_precondition_reporting_amended (env : ExecEnv) (inv : String)
    (p : ExecuteTaskWithProfilePayload) (m : String)
    (h1 : strTruthy env.apiKey = true) :
    runExec env inv none =
      (.ok { success := false, task_result := none, extracted_data := none,
             error := some "Payload is required with profile_name and task",
             session_id := none }, [])
    ∧ runExec { env with apiKey := none } inv (some p) =
      (.ok { success := false, task_result := none, extracted_data := none,
             error := some "ANTHROPIC_API_KEY environment variable is not set",
             session_id := none }, [])
    ∧ (∃ o, (runExec env inv (some p)).1 = .ok o)
    ∧ (runExec { env with browsersCreate := .err (.other m) } inv (some p)).2 =
        [.browsersCreate inv p.profile_name false true] := by
  refine ⟨rfl, rfl, exec_returns_ok env inv (some p), ?_⟩
  obtain ⟨key, bc, as_, act, ext, del, stp⟩ := env
  simp only at h1
  simp [runExec, executeTaskWithProfile, executeTaskTry, executeTaskCatch,
    executeTaskCleanup, extCallX, emitX, jsTry, jsThrow, getState, modifyState,
    instMonadComp, Comp.bind, Comp.pure, h1]

/-- C7 amended witness: the amended theorem instantiated at the
all-success fixture and a payload lacking every field. -/
theorem exec_precondition_reporting_amended_witness :
    runExec execEnvAllOk "inv" none =
      (.ok { success := false, task_result := none, extracted_data := none,
             error := some "Payload is required with profile_name and task",
             session_id := none }, [])
    ∧ runExec { execEnvAllOk with apiKey := none } "inv"
        (some { profile_name := none, task := none, url := none,
                extract_instructions := none }) =
      (.ok { success := false, task_result := none, extracted_data := none,
             error := some "ANTHROPIC_API_KEY environment variable is not set",
             session_id := none }, [])
    ∧ (∃ o, (runExec execEnvAllOk "inv"
        (some { profile_name := none, task := none, url := none,
                extract_instructions := none })).1 = .ok o)
    ∧ (runExec { execEnvAllOk with browsersCreate := .err (.other "down") } "inv"
        (some { profile_name := none, task := none, url := none,
                extract_instructions := none })).2 =
        [.browsersCreate "inv" none false true] :=
  exec_precondition_reporting_amended execEnvAllOk "inv"
    { profile_name := none, task := none, url := none,
      extract_instructions := none } "down" rfl

/-- C8: for every collaborator behaviour, a profile-creation failure of
conflict kind leaves `create-profile-browser` behaving exactly as if the
creation had succeeded (it logs and continues), while any other
profile-creation error propagates as fatal and aborts the operation
before any session-creation call. -/
theorem create_profile_conflict_vs_other_error (env : CreateEnv) (inv m : String) :
    runCreate { env with profilesCreate := .err (.conflict m) } inv =
      runCreate { env with profilesCreate := .ok () } inv
    ∧ (runCreate { env with profilesCreate := .err (.other m) } inv).1 =
        .error (.other m)
    ∧ (runCreate { env with profilesCreate := .err (.other m) } inv).2.filter
        Event.isBrowsersCreate = [] := by
  obtain ⟨ts, rs, pc, bc⟩ := env
  refine ⟨?_, ?_, ?_⟩
  · cases bc <;>
      simp [runCreate, createProfileBrowser, generatedProfileName, extCall, emit,
        jsTry, jsThrow, getState, modifyState, instMonadComp, Comp.bind, Comp.pure]
  · simp [runCreate, createProfileBrowser, generatedProfileName, extCall, emit,
      jsTry, jsThrow, getState, modifyState, instMonadComp, Comp.bind, Comp.pure]
  · simp [runCreate, createProfileBrowser, generatedProfileName, extCall, emit,
      jsTry, jsThrow, getState, modifyState, instMonadComp, Comp.bind, Comp.pure,
      Event.isBrowsersCreate]

/-- C10: in a successful run, the output when no extraction instructions
were supplied is identical to the output when extraction was attempted
and failed — `extracted_data` is `none` in both, so the caller cannot
distinguish the two cases from the result. -/
theorem exec_extraction_absent_vs_failed_indistinguishable (env : ExecEnv)
    (inv : String) (p : ExecuteTaskWithProfilePayload) (kb : KernelBrowser)
    (r instr : String) (e : JsError)
    (h1 : strTruthy env.apiKey = true)
    (h2 : env.browsersCreate = .ok kb)
    (h3 : env.agentStart = .ok ())
    (h4 : env.act = .ok r)
    (h5 : env.extract = .err e)
    (h7 : instr.isEmpty = false) :
    (runExec env inv (some { p with extract_instructions := some instr })).1 =
      (runExec env inv (some { p with extract_instructions := none })).1
    ∧ (runExec env inv (some { p with extract_instructions := some instr })).1 =
      .ok { success := true, task_result := some r, extracted_data := none,
            error := none, session_id := kb.session_id } := by
  rw [exec_result_ignores_cleanup env inv _ h1, exec_result_ignores_cleanup env inv _ h1]
  constructor <;>
    simp [executeTaskTry, extCallX, emitX, jsTry, jsThrow, getState, modifyState,
      instMonadComp, Comp.bind, Comp.pure, h2, h3, h4, h5, h7,
      strTruthy_none, strTruthy_some, jsOr_some]

/-- C10 witness: the theorem instantiated at the all-success fixture with
a failing extraction call. -/
theorem exec_extraction_absent_vs_failed_indistinguishable_witness :
    (runExec { execEnvAllOk with extract := .err (.other "boom") } "inv"
      (some { payloadFix with extract_instructions := some "get the data" })).1 =
      (runExec { execEnvAllOk with extract := .err (.other "boom") } "inv"
        (some { payloadFix with extract_instructions := none })).1
    ∧ (runExec { execEnvAllOk with extract := .err (.other "boom") } "inv"
        (some { payloadFix with extract_instructions := some "get the data" })).1 =
      .ok { success := true, task_result := some "task done",
            extracted_data := none, error := none,
            session_id := kbFix.session_id } :=
  exec_extraction_absent_vs_failed_indistinguishable
    { execEnvAllOk with extract := .err (.other "boom") } "inv" payloadFix kbFix
    "task done" "get the data" (.other "boom") rfl rfl rfl rfl rfl rfl
